import Mathlib

/-!
Verification development for the claude-code-router dispatch and resilience
engine.  The definitions below are a shallow embedding of the TypeScript
sources:

* `packages/core/src/services/metrics.ts` — `ModelPoolManager` (per
  provider+model slot: counters, priority queue, circuit breaker, rate-limit
  backoff);
* `packages/core/src/api/routes.ts` — dispatch bookkeeping
  (`handleSinglePath`, `tryProactiveParallel` / `tryAlternativesParallel`
  catch branches, `shouldAttemptFailover`, `formatResponse`);
* `packages/core/src/utils/headers.ts` — `HeaderManager`;
* `packages/core/src/utils/sse-stream-manager.ts` — `SSEStreamManager`.

JavaScript numbers are modelled by `Int` (counters, which the code can drive
negative) and by `ℚ` (timestamps and millisecond durations, where the config
multiplier 1.5 makes exact rational arithmetic the faithful model).  Mutable
per-slot state is explicit state passing: each operation maps a `ModelSlot`
to a new `ModelSlot` (plus its returned value).  Promise resolution performed
by `processQueueForSlot` is surfaced as the popped queue entry.
-/

namespace CCR

/-- A queued request as stored in `ModelSlot.queuedRequests`.  The source
record also carries inert handles (`req`, `reply`, `transformer`, `resolve`,
`reject`, timer ids) that do not influence the queue algebra; only the
identity and the priority drive behaviour. -/
structure QueuedReq where
  id : String
  priority : Int
  deriving Repr, DecidableEq

/-- The per-(provider,model) slot of `ModelPoolManager` (metrics.ts,
interface `ModelSlot`).  `provider`/`model`/`lastUsed` are dropped: they
never feed back into control flow of the operations embedded here. -/
structure ModelSlot where
  activeRequests : Int
  reservedRequests : Int
  reservedForQueue : Int
  maxConcurrent : Int
  queuedRequests : List QueuedReq
  rateLimitUntil : Option ℚ
  rateLimitBackoffCount : Nat
  rateLimitBaseRetryAfter : ℚ
  circuitBreakerOpen : Bool
  circuitBreakerOpenUntil : Option ℚ
  failureCount : Int
  successCount : Int
  deriving Repr, DecidableEq

/-- The slice of `ModelPoolConfig` (metrics.ts `loadConfig`) read by the
operations embedded here. -/
structure PoolConfig where
  maxConcurrentPerModel : Int
  failureThreshold : Int
  cooldownPeriod : ℚ
  testRequestAfterCooldown : Bool
  defaultRetryAfter : ℚ
  respectRetryAfterHeader : Bool
  backoffMultiplier : ℚ
  maxBackoff : ℚ
  maxQueueSize : Nat
  queueTimeout : ℚ
  deriving Repr, DecidableEq

/-- The defaults of `loadConfig` with an empty user config. -/
def defaultPoolConfig : PoolConfig :=
  { maxConcurrentPerModel := 2
    failureThreshold := 5
    cooldownPeriod := 60000
    testRequestAfterCooldown := true
    defaultRetryAfter := 60000
    respectRetryAfterHeader := true
    backoffMultiplier := 3 / 2
    maxBackoff := 300000
    maxQueueSize := 100
    queueTimeout := 300000 }

/-- A slot as produced by `getOrCreateSlot` (all counters zero, breaker
closed, base retry-after from config), with the given concurrency limit. -/
def freshSlot (cfg : PoolConfig) : ModelSlot :=
  { activeRequests := 0
    reservedRequests := 0
    reservedForQueue := 0
    maxConcurrent := cfg.maxConcurrentPerModel
    queuedRequests := []
    rateLimitUntil := none
    rateLimitBackoffCount := 0
    rateLimitBaseRetryAfter := cfg.defaultRetryAfter
    circuitBreakerOpen := false
    circuitBreakerOpenUntil := none
    failureCount := 0
    successCount := 0 }

/-- `validateSlotCounters` (metrics.ts): any negative counter is reset to 0. -/
def validateSlotCounters (s : ModelSlot) : ModelSlot :=
  { s with
    activeRequests := if s.activeRequests < 0 then 0 else s.activeRequests
    reservedRequests := if s.reservedRequests < 0 then 0 else s.reservedRequests
    reservedForQueue := if s.reservedForQueue < 0 then 0 else s.reservedForQueue }

/-- JS truthiness-and-comparison `x && now < x` for an optional timestamp. -/
def timeGateActive (now : ℚ) : Option ℚ → Bool
  | some u => now < u
  | none => false

/-- `hasCapacity` (metrics.ts).  Returns the boolean result together with the
mutated slot (counter validation and the half-open circuit clearing are side
effects in the source). -/
def hasCapacity (cfg : PoolConfig) (now : ℚ) (s : ModelSlot) : Bool × ModelSlot :=
  let s := validateSlotCounters s
  if s.circuitBreakerOpen then
    if timeGateActive now s.circuitBreakerOpenUntil then (false, s)
    else if cfg.testRequestAfterCooldown then
      let s := { s with circuitBreakerOpen := false, failureCount := 0 }
      if timeGateActive now s.rateLimitUntil then (false, s)
      else
        (decide (s.maxConcurrent - s.activeRequests - s.reservedRequests - s.reservedForQueue > 0), s)
    else (false, s)
  else
    if timeGateActive now s.rateLimitUntil then (false, s)
    else
      (decide (s.maxConcurrent - s.activeRequests - s.reservedRequests - s.reservedForQueue > 0), s)

/-- `markFailure` (metrics.ts): increment `failureCount`; at
`failureThreshold` open the circuit breaker for `cooldownPeriod`. -/
def markFailure (cfg : PoolConfig) (now : ℚ) (s : ModelSlot) : ModelSlot :=
  let s := { s with failureCount := s.failureCount + 1 }
  if s.failureCount ≥ cfg.failureThreshold then
    { s with circuitBreakerOpen := true
             circuitBreakerOpenUntil := some (now + cfg.cooldownPeriod) }
  else s

/-- `markSuccess` (metrics.ts): bump `successCount`, drain one unit of
`failureCount` (floored at 0), and on a positive backoff count reset the
rate-limit backoff to the configured default. -/
def markSuccess (cfg : PoolConfig) (s : ModelSlot) : ModelSlot :=
  let s := { s with successCount := s.successCount + 1 }
  let s :=
    if s.failureCount > 0 then { s with failureCount := max 0 (s.failureCount - 1) } else s
  if s.rateLimitBackoffCount > 0 then
    { s with rateLimitBackoffCount := 0, rateLimitBaseRetryAfter := cfg.defaultRetryAfter }
  else s

/-- `markRateLimit` (metrics.ts).  `retryAfter` is the optional explicit
delay (JS falsy when absent or zero); without it the delay is
`min(base * multiplier ^ (count - 1), maxBackoff)` for the just-incremented
backoff count. -/
def markRateLimit (cfg : PoolConfig) (now : ℚ) (retryAfter : Option ℚ) (s : ModelSlot) :
    ModelSlot :=
  let s := { s with rateLimitBackoffCount := s.rateLimitBackoffCount + 1 }
  let useExplicit :=
    (match retryAfter with
     | some ra => decide (ra ≠ 0)
     | none => false) && cfg.respectRetryAfterHeader
  if useExplicit then
    let ra := retryAfter.getD 0
    { s with rateLimitBaseRetryAfter := ra, rateLimitUntil := some (now + ra) }
  else
    let delay :=
      min (s.rateLimitBaseRetryAfter * cfg.backoffMultiplier ^ (s.rateLimitBackoffCount - 1))
        cfg.maxBackoff
    { s with rateLimitUntil := some (now + delay) }

/-- Stable insertion used to model `queuedRequests.sort((a, b) => b.priority -
a.priority)`: the new element goes after every element of priority at least
its own, which together with left-to-right insertion reproduces V8's stable
descending sort. -/
def insertByPriorityDesc (q : QueuedReq) : List QueuedReq → List QueuedReq
  | [] => [q]
  | x :: xs => if x.priority ≥ q.priority then x :: insertByPriorityDesc q xs else q :: x :: xs

/-- Stable sort by priority descending (ties keep encounter order). -/
def sortByPriorityDesc (l : List QueuedReq) : List QueuedReq :=
  l.foldl (fun acc q => insertByPriorityDesc q acc) []

/-- `enqueueRequest` (metrics.ts) state effect: reject with "Queue full" at
`maxQueueSize`, otherwise push, re-sort by priority, and take one unit of
`reservedForQueue`.  (The armed deadline timer is modelled separately by
`queueDeadlineFire`.) -/
def enqueueRequest (cfg : PoolConfig) (q : QueuedReq) (s : ModelSlot) :
    Except String ModelSlot :=
  if s.queuedRequests.length ≥ cfg.maxQueueSize then
    Except.error "Queue full"
  else
    Except.ok
      { s with
        queuedRequests := sortByPriorityDesc (s.queuedRequests ++ [q])
        reservedForQueue := s.reservedForQueue + 1 }

/-- Removal of the first queue entry with the given id (`findIndex` +
`splice(index, 1)` in the source). -/
def eraseFirstById (rid : String) : List QueuedReq → List QueuedReq
  | [] => []
  | x :: xs => if x.id = rid then xs else x :: eraseFirstById rid xs

/-- `removeFromQueue` (metrics.ts): when the id is present, splice it out and
decrement `reservedForQueue` behind a `> 0` guard (with counter validation);
returns whether an entry was removed. -/
def removeFromQueue (rid : String) (s : ModelSlot) : Bool × ModelSlot :=
  if s.queuedRequests.any (fun r => r.id = rid) then
    let s1 := { s with queuedRequests := eraseFirstById rid s.queuedRequests }
    let s2 :=
      if s1.reservedForQueue > 0 then
        validateSlotCounters { s1 with reservedForQueue := s1.reservedForQueue - 1 }
      else s1
    (true, s2)
  else (false, s)

/-- The deadline-timer callback armed by `enqueueRequest` (metrics.ts): call
`removeFromQueue`, and when it removed the entry decrement
`reservedForQueue` once more, unguarded, before rejecting the promise. -/
def queueDeadlineFire (rid : String) (s : ModelSlot) : ModelSlot :=
  let r := removeFromQueue rid s
  if r.1 then { r.2 with reservedForQueue := r.2.reservedForQueue - 1 } else r.2

/-- `processNextQueuedRequest` (metrics.ts): shift the queue head, release
its `reservedForQueue` unit behind a `> 0` guard, and promote it to an
active request. -/
def processNextQueuedRequest (s : ModelSlot) : Option QueuedReq × ModelSlot :=
  match s.queuedRequests with
  | [] => (none, s)
  | q :: rest =>
    let s1 := { s with queuedRequests := rest }
    let s2 :=
      if s1.reservedForQueue > 0 then
        validateSlotCounters { s1 with reservedForQueue := s1.reservedForQueue - 1 }
      else s1
    let s3 := validateSlotCounters { s2 with activeRequests := s2.activeRequests + 1 }
    (some q, s3)

/-- `processQueueForSlot` (metrics.ts): when the queue is non-empty and
`maxConcurrent - active - reserved - reservedForQueue > 0`, pop the head and
resolve its promise (returned as the second component). -/
def processQueueForSlot (s : ModelSlot) : ModelSlot × Option QueuedReq :=
  if s.queuedRequests.isEmpty then (s, none)
  else
    let effectiveCapacity :=
      s.maxConcurrent - s.activeRequests - s.reservedRequests - s.reservedForQueue
    if effectiveCapacity > 0 then
      let r := processNextQueuedRequest s
      (r.2, r.1)
    else (s, none)

/-- `releaseSlot` (metrics.ts): decrement `activeRequests` behind a `> 0`
guard, count the outcome (`successCount` or `failureCount` — with no
threshold check), then run `processQueueForSlot`. -/
def releaseSlot (success : Bool) (s : ModelSlot) : ModelSlot × Option QueuedReq :=
  let s1 :=
    if s.activeRequests > 0 then
      validateSlotCounters { s with activeRequests := s.activeRequests - 1 }
    else s
  let s2 :=
    if success then { s1 with successCount := s1.successCount + 1 }
    else { s1 with failureCount := s1.failureCount + 1 }
  processQueueForSlot s2

/-- ASCII lowering of one character, the behaviour of JS
`String.prototype.toLowerCase` on the ASCII header names this code handles. -/
def lowerChar (c : Char) : Char :=
  if 65 ≤ c.toNat ∧ c.toNat ≤ 90 then Char.ofNat (c.toNat + 32) else c

/-- JS `toLowerCase` on a string (ASCII). -/
def lowerStr (s : String) : String :=
  ⟨s.data.map lowerChar⟩

/-- Character-list prefix test (JS `String.prototype.startsWith`). -/
def isPrefixOfChars : List Char → List Char → Bool
  | [], _ => true
  | _ :: _, [] => false
  | a :: as, b :: bs => a == b && isPrefixOfChars as bs

/-- JS `String.prototype.startsWith`. -/
def startsWithStr (s pre : String) : Bool :=
  isPrefixOfChars pre.data s.data

/-- Character-list substring test, helper for JS `String.prototype.includes`. -/
def containsSubChars (pat : List Char) : List Char → Bool
  | [] => isPrefixOfChars pat []
  | c :: rest => isPrefixOfChars pat (c :: rest) || containsSubChars pat rest

/-- JS `String.prototype.includes`. -/
def containsSub (s pat : String) : Bool :=
  containsSubChars pat.data s.data

/-- The shape of a JS error object as inspected by the dispatch code in
routes.ts: `name` (e.g. "AbortError" for a cancellation), optional `code`,
optional numeric `statusCode`, and the already-parsed optional
`retry-after` header in milliseconds. -/
structure DispatchError where
  name : String
  code : Option String
  statusCode : Option Int
  retryAfterMs : Option ℚ
  deriving Repr, DecidableEq

/-- `isRateLimitError` (routes.ts): statusCode 429, 439 or 449. -/
def isRateLimitError (e : DispatchError) : Bool :=
  e.statusCode == some 429 || e.statusCode == some 439 || e.statusCode == some 449

/-- `shouldAttemptFailover` (routes.ts).  `req.isCustomModel === true` is
modelled on `Option Bool` (undefined compares unequal to true). -/
def shouldAttemptFailover (isCustomModel : Option Bool) (e : DispatchError) : Bool :=
  if isCustomModel != some true then false
  else
    e.code == some "provider_response_error" ||
    e.statusCode == some 429 ||
    e.statusCode == some 439 ||
    e.statusCode == some 449 ||
    e.statusCode == some 503 ||
    e.statusCode == some 502

/-- The failover-eligibility predicate written out from the spec sentence
"applied only when `isCustomModel = true` AND the error is in the failover
set (status in 429, 439, 449, 502, 503 OR code = `provider_response_error`)";
kept separate from `shouldAttemptFailover` so the two can be compared. -/
def specFailoverEligible (isCustomModel : Option Bool) (e : DispatchError) : Prop :=
  isCustomModel = some true ∧
    (e.statusCode = some 429 ∨ e.statusCode = some 439 ∨ e.statusCode = some 449 ∨
      e.statusCode = some 502 ∨ e.statusCode = some 503 ∨
      e.code = some "provider_response_error")

instance (ic : Option Bool) (e : DispatchError) : Decidable (specFailoverEligible ic e) := by
  unfold specFailoverEligible; infer_instance

/-- Slot bookkeeping of the `handleSinglePath` catch branch (routes.ts):
on a rate-limit error `markRateLimit` with the parsed retry-after, then
always `markFailure` followed by `releaseSlot(false)`. -/
def singlePathCatchBookkeeping (cfg : PoolConfig) (now : ℚ) (e : DispatchError)
    (s : ModelSlot) : ModelSlot :=
  let s := if isRateLimitError e then markRateLimit cfg now e.retryAfterMs s else s
  (releaseSlot false (markFailure cfg now s)).1

/-- Slot bookkeeping of the catch branches of `tryProactiveParallel` and
`tryAlternativesParallel` (routes.ts): identical for every caught error —
including a cancellation abort — except that `releaseSlot(false)` only runs
when this candidate had reserved a slot. -/
def parallelCatchBookkeeping (cfg : PoolConfig) (now : ℚ) (e : DispatchError)
    (slotReserved : Bool) (s : ModelSlot) : ModelSlot :=
  let s := if isRateLimitError e then markRateLimit cfg now e.retryAfterMs s else s
  let s := markFailure cfg now s
  if slotReserved then (releaseSlot false s).1 else s

/-- The `isIflow` computation of `formatResponse` (routes.ts line 1592):
`(retryContext?.provider as string)?.startsWith("iflow") ||
(req.provider as string)?.startsWith("iflow")`.  `formatResponse` has no
parameter or enclosing binding named `req`, so whenever the left operand is
falsy, JS evaluation of the right operand throws a ReferenceError; the
embedding returns the JS value when one is produced and `Except.error` for
the thrown ReferenceError. -/
def formatResponseIsIflowEval (retryContextProvider : Option String) : Except String Bool :=
  let lhs :=
    match retryContextProvider with
    | some p => startsWithStr p "iflow"
    | none => false
  if lhs then Except.ok true
  else Except.error "ReferenceError: req is not defined"

/-- An insertion-ordered JS object of string values, as used for header
maps: a list of key-value pairs in property insertion order. -/
abbrev HeaderMap := List (String × String)

/-- JS property assignment `obj[k] = v` on a string record: an exact
(case-sensitive) existing key is overwritten in place, otherwise the pair is
appended, preserving insertion order. -/
def setHeader (m : HeaderMap) (k v : String) : HeaderMap :=
  if m.any (fun p => p.1 == k) then
    m.map (fun p => if p.1 == k then (p.1, v) else p)
  else m ++ [(k, v)]

/-- First value whose key equals `k` case-insensitively (how a reader finds
"the" value of a header in the final map). -/
def lookupHeaderCI (m : HeaderMap) (k : String) : Option String :=
  (m.find? (fun p => lowerStr p.1 == lowerStr k)).map (fun p => p.2)

/-- `HeaderManager.deduplicateHeaders` (headers.ts), written as the loop it
is: walk the entries in order, keep an entry only when its lowercased key
has not been seen yet. -/
def dedupAux (seen : List String) : HeaderMap → HeaderMap
  | [] => []
  | p :: rest =>
    let kl := lowerStr p.1
    if seen.contains kl then dedupAux seen rest
    else p :: dedupAux (kl :: seen) rest

/-- `HeaderManager.deduplicateHeaders` (headers.ts). -/
def deduplicateHeaders (m : HeaderMap) : HeaderMap :=
  dedupAux [] m

/-- `HeaderManager.PROVIDER_HEADERS` (headers.ts). -/
def PROVIDER_HEADERS (key : String) : Option HeaderMap :=
  if key == "iflow" then
    some [("user-agent", "iFlow-Cli"), ("x-client-type", "iflow-cli"),
          ("x-client-version", "0.5.8")]
  else if key == "openai" then some [("User-Agent", "CCR-OpenAI-Client/1.0")]
  else if key == "anthropic" then some [("User-Agent", "CCR-Anthropic-Client/1.0")]
  else none

/-- `HeaderContext` (headers.ts) without the unused `provider`/`model`
fields; optional strings model possibly-absent JS values. -/
structure HeaderContext where
  providerType : Option String
  sessionId : Option String
  conversationId : Option String
  requestId : String
  isStream : Bool
  deriving Repr, DecidableEq

/-- JS truthiness of an optional string. -/
def strTruthy : Option String → Bool
  | some s => s ≠ ""
  | none => false

/-- `HeaderManager.buildRequestHeaders` (headers.ts).  `freshSessionId`
stands for the `Date.now()-random` session id the source generates for an
iflow request that arrives without one.  Steps, in source order: defaults,
Authorization, X-Request-ID, provider overlay, session and conversation
headers, Accept, custom headers (lowercased keys for iflow), removal of
"undefined" values, then case-insensitive deduplication. -/
def buildRequestHeaders (apiKey provider : String) (ctx : HeaderContext)
    (customHeaders : Option HeaderMap) (freshSessionId : String) : HeaderMap :=
  let isIflow :=
    if strTruthy ctx.providerType then startsWithStr (lowerStr (ctx.providerType.getD "")) "iflow"
    else startsWithStr (lowerStr provider) "iflow"
  let headers : HeaderMap := [("Content-Type", "application/json")]
  let headers := setHeader headers "Authorization" ("Bearer " ++ apiKey)
  let headers := setHeader headers "X-Request-ID" ctx.requestId
  let rawLookupKey :=
    if strTruthy ctx.providerType then lowerStr (ctx.providerType.getD "")
    else lowerStr provider
  let lookupKey := if startsWithStr rawLookupKey "iflow" then "iflow" else rawLookupKey
  let headers :=
    match PROVIDER_HEADERS lookupKey with
    | some ph => ph.foldl (fun h p => setHeader h p.1 p.2) headers
    | none => headers
  let sessTruthy := strTruthy ctx.sessionId
  let headers :=
    if isIflow || sessTruthy then
      setHeader headers (if isIflow then "session-id" else "X-Session-ID")
        (if sessTruthy then ctx.sessionId.getD "" else freshSessionId)
    else headers
  let headers :=
    if strTruthy ctx.conversationId then
      setHeader headers (if isIflow then "conversation-id" else "X-Conversation-ID")
        (ctx.conversationId.getD "")
    else headers
  let headers :=
    setHeader headers "Accept"
      (if ctx.isStream then (if isIflow then "application/json" else "text/event-stream")
       else "application/json")
  let headers :=
    match customHeaders with
    | some chs =>
      chs.foldl
        (fun (h : HeaderMap) (p : String × String) =>
          if p.2 ≠ "" ∧ p.2 ≠ "undefined" then
            setHeader h (if isIflow then lowerStr p.1 else p.1) p.2
          else h)
        headers
    | none => headers
  let headers :=
    headers.filter
      (fun (p : String × String) =>
        !(p.2 == "undefined" ||
          (lowerStr p.1 == "authorization" && containsSub p.2 "undefined")))
  deduplicateHeaders headers

/-- The `SSEStreamManager` fields that data-activity tracking and staggered
detection read (sse-stream-manager.ts), in the Web-Streams controller mode
that `formatResponse` instantiates. -/
structure SSEState where
  lastActivity : ℚ
  lastChunkTime : ℚ
  chunkCount : Nat
  tokenCount : Nat
  isConnected : Bool
  deriving Repr, DecidableEq

/-- `SSEStreamManager.sendHeartbeat` (controller mode): when disconnected
report failure; otherwise emit the `:ping` comment, whose delivery outcome
is `enqueueOk` (the result of `enqueueWithBackpressure`).  By design it
leaves `lastActivity`, `lastChunkTime` and `chunkCount` untouched. -/
def sendHeartbeat (enqueueOk : Bool) (s : SSEState) : Bool × SSEState :=
  if !s.isConnected then (false, s)
  else (enqueueOk, s)

/-- `SSEStreamManager.write` (controller mode): when connected, stamp
`lastActivity` and `lastChunkTime` with the current time, increment
`chunkCount`, then deliver the data chunk with outcome `enqueueOk`. -/
def sseWrite (now : ℚ) (enqueueOk : Bool) (s : SSEState) : Bool × SSEState :=
  if !s.isConnected then (false, s)
  else
    (enqueueOk,
      { s with lastActivity := now, lastChunkTime := now, chunkCount := s.chunkCount + 1 })

/-! Concrete scenario inputs used by the counterexample and evaluation
theorems below. -/

/-- A slot saturated with five active requests (capacity five). -/
def slotFiveActive : ModelSlot :=
  { freshSlot defaultPoolConfig with maxConcurrent := 5, activeRequests := 5 }

/-- One `releaseSlot(_, false)` step, keeping only the slot. -/
def releaseFail (s : ModelSlot) : ModelSlot :=
  (releaseSlot false s).1

/-- The scenario slot of spec scenario 2: `maxConcurrent = 2`, two active. -/
def slotTwoActive : ModelSlot :=
  { freshSlot defaultPoolConfig with activeRequests := 2 }

/-- Release an active slot `n` times, collecting the ids of the queued
requests whose promises `processQueueForSlot` resolves, in order. -/
def releaseDrainIds : Nat → ModelSlot → ModelSlot × List String
  | 0, s => (s, [])
  | n + 1, s =>
    let r1 := releaseSlot true s
    let r2 := releaseDrainIds n r1.1
    (r2.1, (r1.2.elim [] (fun q => [q.id])) ++ r2.2)

/-- Spec scenario 2 executed on the embedding: enqueue priorities −10, 10, 0
in that order onto a full slot, then release an active slot three times;
returns (resolved ids in order, ids still queued). -/
def priorityScenarioTrace : Except String (List String × List String) :=
  (enqueueRequest defaultPoolConfig ⟨"A", -10⟩ slotTwoActive).bind (fun s1 =>
  (enqueueRequest defaultPoolConfig ⟨"B", 10⟩ s1).bind (fun s2 =>
  (enqueueRequest defaultPoolConfig ⟨"C", 0⟩ s2).map (fun s3 =>
    let r := releaseDrainIds 3 s3
    (r.2, r.1.queuedRequests.map (fun q => q.id)))))

/-- A cancellation as caught by the race catch branches: the abort rejection
carries no HTTP status and no dialect error code. -/
def abortError : DispatchError :=
  { name := "AbortError", code := none, statusCode := none, retryAfterMs := none }

/-- A plain upstream failure with HTTP status 500 (not a rate limit). -/
def serverError : DispatchError :=
  { name := "Error", code := none, statusCode := some 500, retryAfterMs := none }

/-- A rate-limit upstream error with HTTP status 429. -/
def rateLimitedError : DispatchError :=
  { name := "Error", code := none, statusCode := some 429, retryAfterMs := none }

/-- A slot with one active request (a confirmed race candidate). -/
def slotOneActive : ModelSlot :=
  { freshSlot defaultPoolConfig with activeRequests := 1 }

/-- A slot with three active requests, used to run three failed dispatches. -/
def slotThreeActive : ModelSlot :=
  { freshSlot defaultPoolConfig with maxConcurrent := 3, activeRequests := 3 }

/-- A non-iflow, non-stream header context with no session identifiers. -/
def plainHeaderContext : HeaderContext :=
  { providerType := none, sessionId := none, conversationId := none,
    requestId := "r1", isStream := false }

/-- A connected SSE stream state with some recorded activity. -/
def sseProbeState : SSEState :=
  { lastActivity := 1000, lastChunkTime := 900, chunkCount := 4, tokenCount := 7,
    isConnected := true }

/-! Theorems.  Helper lemmas first, then one theorem per claim (with
counterexamples and witnesses where the claim status calls for them). -/

/-! Helper lemmas -/

theorem validateSlotCounters_fc (s : ModelSlot) :
    (validateSlotCounters s).failureCount = s.failureCount := rfl

theorem validateSlotCounters_cbo (s : ModelSlot) :
    (validateSlotCounters s).circuitBreakerOpen = s.circuitBreakerOpen := rfl

theorem validateSlotCounters_cbu (s : ModelSlot) :
    (validateSlotCounters s).circuitBreakerOpenUntil = s.circuitBreakerOpenUntil := rfl

theorem processNextQueuedRequest_fc (s : ModelSlot) :
    (processNextQueuedRequest s).2.failureCount = s.failureCount := by
  unfold processNextQueuedRequest
  rcases s.queuedRequests with _ | ⟨q, rest⟩
  · rfl
  · simp only []
    split <;> simp [validateSlotCounters]

theorem processNextQueuedRequest_cbo (s : ModelSlot) :
    (processNextQueuedRequest s).2.circuitBreakerOpen = s.circuitBreakerOpen := by
  unfold processNextQueuedRequest
  rcases s.queuedRequests with _ | ⟨q, rest⟩
  · rfl
  · simp only []
    split <;> simp [validateSlotCounters]

theorem processQueueForSlot_fc (s : ModelSlot) :
    (processQueueForSlot s).1.failureCount = s.failureCount := by
  unfold processQueueForSlot
  dsimp only
  split
  · rfl
  · split
    · simp [processNextQueuedRequest_fc]
    · rfl

theorem processQueueForSlot_cbo (s : ModelSlot) :
    (processQueueForSlot s).1.circuitBreakerOpen = s.circuitBreakerOpen := by
  unfold processQueueForSlot
  dsimp only
  split
  · rfl
  · split
    · simp [processNextQueuedRequest_cbo]
    · rfl

theorem releaseSlot_false_fc (s : ModelSlot) :
    (releaseSlot false s).1.failureCount = s.failureCount + 1 := by
  unfold releaseSlot
  simp only [Bool.false_eq_true, if_false]
  split <;> simp [processQueueForSlot_fc, validateSlotCounters]

theorem releaseSlot_cbo (b : Bool) (s : ModelSlot) :
    (releaseSlot b s).1.circuitBreakerOpen = s.circuitBreakerOpen := by
  unfold releaseSlot
  split <;> split <;> simp [processQueueForSlot_cbo, validateSlotCounters]

theorem markFailure_fc (cfg : PoolConfig) (now : ℚ) (s : ModelSlot) :
    (markFailure cfg now s).failureCount = s.failureCount + 1 := by
  unfold markFailure
  dsimp only
  split <;> rfl

theorem markFailure_cbo (cfg : PoolConfig) (now : ℚ) (s : ModelSlot) :
    (markFailure cfg now s).circuitBreakerOpen =
      (if s.failureCount + 1 ≥ cfg.failureThreshold then true else s.circuitBreakerOpen) := by
  unfold markFailure
  dsimp only
  split
  · next h => simp [h]
  · next h => simp [h]

/-! Claim theorems, first batch -/

/-- C1, evaluation at the failing input: on a `maxConcurrent = 2` slot with
two active requests, after enqueueing priorities −10, 10, 0 (ids A, B, C)
and releasing an active slot three times, NO queued promise resolves — the
three `reservedForQueue` units make `processQueueForSlot`'s effective
capacity non-positive — although the queue is correctly priority-ordered
as B, C, A.  The claimed resolution order (10, then 0, then −10) is
therefore unreachable. -/
theorem priority_queue_scenario_never_resolves :
    priorityScenarioTrace = Except.ok ([], ["B", "C", "A"]) := by rfl

/-- C2, counterexample to the claim as stated: with the default config
(`failureThreshold = 5`), five consecutive `releaseSlot(_, false)` calls on
a slot with five active requests leave `failureCount = 5` but
`circuitBreakerOpen = false`, and `hasCapacity` still returns true —
`releaseSlot` increments `failureCount` without ever consulting the
threshold. -/
theorem releaseSlot_failures_never_trip_breaker :
    (releaseFail (releaseFail (releaseFail (releaseFail (releaseFail
        slotFiveActive))))).circuitBreakerOpen = false ∧
    (releaseFail (releaseFail (releaseFail (releaseFail (releaseFail
        slotFiveActive))))).failureCount = 5 ∧
    (hasCapacity defaultPoolConfig 0
      (releaseFail (releaseFail (releaseFail (releaseFail (releaseFail
        slotFiveActive)))))).1 = true := ⟨rfl, rfl, rfl⟩

/-- C3, evaluation at the failing input: enqueue a single request onto a
fresh slot (so `reservedForQueue = 1`) and let its deadline timer fire; the
timer callback calls `removeFromQueue` (which already decrements
`reservedForQueue` behind its guard) and then decrements once more
unguarded, leaving `reservedForQueue = −1`, violating the claimed
non-negativity invariant. -/
theorem queue_deadline_double_decrement :
    (enqueueRequest defaultPoolConfig ⟨"X", 0⟩ (freshSlot defaultPoolConfig)).map
      (fun s => (queueDeadlineFire "X" s).reservedForQueue) = Except.ok (-1) := by rfl

/-- C4, evaluation at the failing input: a race candidate cancelled by the
winner's abort (an AbortError with no HTTP status) falls into the parallel
catch branch, which unconditionally runs `markFailure` and then
`releaseSlot(false)`; a slot with `failureCount = 0` ends at
`failureCount = 2`, so the cancellation does count toward opening the
circuit breaker, contrary to the claim. -/
theorem race_cancellation_counted_as_failure :
    abortError.name = "AbortError" ∧ slotOneActive.failureCount = 0 ∧
    (parallelCatchBookkeeping defaultPoolConfig 0 abortError true
        slotOneActive).failureCount = 2 := ⟨rfl, rfl, rfl⟩

/-- C5: `shouldAttemptFailover` (the sole gate on the single-path failover
attempt in the top-level catch of routes.ts) returns true exactly when the
request's `isCustomModel` flag is true and the error's status is one of
429, 439, 449, 502, 503 or its code equals `provider_response_error`. -/
theorem shouldAttemptFailover_iff_spec :
    ∀ (ic : Option Bool) (e : DispatchError),
      shouldAttemptFailover ic e = true ↔ specFailoverEligible ic e := by
  intro ic e
  unfold shouldAttemptFailover specFailoverEligible
  rcases ic with _ | b
  · simp
  · rcases b
    · simp
    · simp [beq_iff_eq]
      tauto

/-- C9, evaluation at the failing input: the `isIflow` computation in
`formatResponse` throws a ReferenceError (undeclared identifier `req`)
whenever `retryContext.provider` is absent or does not start with "iflow";
it only produces a value when the left operand short-circuits to true.  The
claimed totality of the stream-time iflow derivation fails. -/
theorem formatResponse_isIflow_reference_error :
    formatResponseIsIflowEval (some "openrouter") =
      Except.error "ReferenceError: req is not defined" ∧
    formatResponseIsIflowEval none =
      Except.error "ReferenceError: req is not defined" ∧
    formatResponseIsIflowEval (some "iflowA") = Except.ok true := ⟨rfl, rfl, rfl⟩

/-- C7, counterexample to the claim as stated: building headers for
provider "openai" with custom header `content-type: text/plain` leaves the
earlier default `Content-Type: application/json` in the final map and drops
the later-written custom value entirely — deduplication keeps the FIRST
entry under case-insensitive key equality, not the last. -/
theorem custom_header_case_override_dropped :
    lookupHeaderCI
      (buildRequestHeaders "k" "openai" plainHeaderContext
        (some [("content-type", "text/plain")]) "fresh")
      "content-type" = some "application/json" ∧
    (buildRequestHeaders "k" "openai" plainHeaderContext
        (some [("content-type", "text/plain")]) "fresh").any
      (fun p => p.2 == "text/plain") = false := ⟨rfl, rfl⟩

/-- C8: `sendHeartbeat` (the `:ping` SSE comment) leaves `lastActivity`,
`lastChunkTime` and `chunkCount` unchanged whatever the delivery outcome,
while a data `write` on a connected stream stamps both timestamps with the
current time and increments `chunkCount`. -/
theorem heartbeat_preserves_data_activity (ok : Bool) (s : SSEState) :
    ((sendHeartbeat ok s).2.lastActivity = s.lastActivity ∧
     (sendHeartbeat ok s).2.lastChunkTime = s.lastChunkTime ∧
     (sendHeartbeat ok s).2.chunkCount = s.chunkCount) ∧
    (∀ (now : ℚ) (ok2 : Bool), s.isConnected = true →
      (sseWrite now ok2 s).2.lastActivity = now ∧
      (sseWrite now ok2 s).2.lastChunkTime = now ∧
      (sseWrite now ok2 s).2.chunkCount = s.chunkCount + 1) := by
  constructor
  · unfold sendHeartbeat
    split <;> exact ⟨rfl, rfl, rfl⟩
  · intro now ok2 h
    simp [sseWrite, h]

/-- Witness for C8 at a concrete connected stream state. -/
theorem heartbeat_preserves_data_activity_witness :
    ((sendHeartbeat true sseProbeState).2.lastActivity = sseProbeState.lastActivity ∧
     (sendHeartbeat true sseProbeState).2.lastChunkTime = sseProbeState.lastChunkTime ∧
     (sendHeartbeat true sseProbeState).2.chunkCount = sseProbeState.chunkCount) ∧
    ((sseWrite 2000 true sseProbeState).2.lastActivity = 2000 ∧
     (sseWrite 2000 true sseProbeState).2.lastChunkTime = 2000 ∧
     (sseWrite 2000 true sseProbeState).2.chunkCount = sseProbeState.chunkCount + 1) := by
  have h := heartbeat_preserves_data_activity true sseProbeState
  exact ⟨h.1, h.2 2000 true rfl⟩

/-! Inductive lemmas and remaining claim theorems -/

theorem markFailure_fold (cfg : PoolConfig) :
    ∀ (ts : List ℚ) (hne : ts ≠ []) (s : ModelSlot),
      cfg.failureThreshold ≤ s.failureCount + ts.length →
      ((ts.foldl (fun st t => markFailure cfg t st) s).circuitBreakerOpen = true ∧
       (ts.foldl (fun st t => markFailure cfg t st) s).circuitBreakerOpenUntil =
         some (ts.getLast hne + cfg.cooldownPeriod) ∧
       (ts.foldl (fun st t => markFailure cfg t st) s).failureCount =
         s.failureCount + ts.length)
  | [], hne, s, h => absurd rfl hne
  | [t], hne, s, h => by
    simp only [List.foldl]
    have hc : s.failureCount + 1 ≥ cfg.failureThreshold := by
      simpa using h
    unfold markFailure
    dsimp only
    rw [if_pos hc]
    exact ⟨rfl, rfl, by simp⟩
  | t :: t2 :: ts, hne, s, h => by
    have hne2 : (t2 :: ts) ≠ [] := by simp
    have h2 : cfg.failureThreshold ≤ (markFailure cfg t s).failureCount + (t2 :: ts).length := by
      rw [markFailure_fc]
      simp only [List.length_cons] at h ⊢
      push_cast at h ⊢
      omega
    have ih := markFailure_fold cfg (t2 :: ts) hne2 (markFailure cfg t s) h2
    simp only [List.foldl] at ih ⊢
    refine ⟨ih.1, ?_, ?_⟩
    · rw [ih.2.1, List.getLast_cons hne2]
    · rw [ih.2.2, markFailure_fc]
      simp only [List.length_cons]
      push_cast
      ring

theorem hasCapacity_circuit_open (cfg : PoolConfig) (t u : ℚ) (s : ModelSlot)
    (h1 : s.circuitBreakerOpen = true) (h2 : s.circuitBreakerOpenUntil = some u)
    (h3 : t < u) :
    (hasCapacity cfg t s).1 = false := by
  unfold hasCapacity
  dsimp only
  rw [validateSlotCounters_cbo, validateSlotCounters_cbu, h1, h2]
  simp [timeGateActive, h3]

/-- C2, amended claim: `releaseSlot(p,m,false)` never opens the circuit;
the circuit opens through `markFailure`.  Calling `markFailure`
`failureThreshold` times with no intervening success leaves
`circuitBreakerOpen = true` with `circuitBreakerOpenUntil` equal to the
time of the tripping call plus `cooldownPeriod`, and every `hasCapacity`
before that instant returns false. -/
theorem circuit_trip_via_markFailure (cfg : PoolConfig) (s : ModelSlot) (ts : List ℚ)
    (hne : ts ≠ []) (h0 : s.failureCount = 0)
    (hth : (ts.length : Int) = cfg.failureThreshold) :
    ((ts.foldl (fun st t => markFailure cfg t st) s).circuitBreakerOpen = true ∧
     (ts.foldl (fun st t => markFailure cfg t st) s).circuitBreakerOpenUntil =
       some (ts.getLast hne + cfg.cooldownPeriod) ∧
     ∀ t2, t2 < ts.getLast hne + cfg.cooldownPeriod →
       (hasCapacity cfg t2 (ts.foldl (fun st t => markFailure cfg t st) s)).1 = false) := by
  have h := markFailure_fold cfg ts hne s (by rw [h0]; omega)
  exact ⟨h.1, h.2.1, fun t2 ht2 => hasCapacity_circuit_open cfg t2 _ _ h.1 h.2.1 ht2⟩

/-- Witness for the amended C2 at the default config and five concrete
failure times. -/
theorem circuit_trip_via_markFailure_witness :
    ((([0, 1, 2, 3, 4] : List ℚ).foldl
        (fun st t => markFailure defaultPoolConfig t st)
        (freshSlot defaultPoolConfig)).circuitBreakerOpen = true ∧
     (hasCapacity defaultPoolConfig 0
        (([0, 1, 2, 3, 4] : List ℚ).foldl
          (fun st t => markFailure defaultPoolConfig t st)
          (freshSlot defaultPoolConfig))).1 = false) := by
  have h := circuit_trip_via_markFailure defaultPoolConfig (freshSlot defaultPoolConfig)
    [0, 1, 2, 3, 4] (by simp) rfl (by rfl)
  exact ⟨h.1, h.2.2 0 (by norm_num [defaultPoolConfig, List.getLast])⟩

theorem markRateLimit_none (cfg : PoolConfig) (t : ℚ) (s : ModelSlot) :
    markRateLimit cfg t none s =
      { s with
        rateLimitBackoffCount := s.rateLimitBackoffCount + 1
        rateLimitUntil :=
          some (t + min (s.rateLimitBaseRetryAfter *
            cfg.backoffMultiplier ^ s.rateLimitBackoffCount) cfg.maxBackoff) } := by
  unfold markRateLimit
  simp

theorem markRateLimit_count (cfg : PoolConfig) (t : ℚ) (ra : Option ℚ) (s : ModelSlot) :
    (markRateLimit cfg t ra s).rateLimitBackoffCount = s.rateLimitBackoffCount + 1 := by
  unfold markRateLimit
  dsimp only
  split <;> rfl

theorem markRateLimit_base_none (cfg : PoolConfig) (t : ℚ) (s : ModelSlot) :
    (markRateLimit cfg t none s).rateLimitBaseRetryAfter = s.rateLimitBaseRetryAfter := by
  rw [markRateLimit_none]

theorem markRateLimit_fold (cfg : PoolConfig) :
    ∀ (ts : List ℚ) (hne : ts ≠ []) (s : ModelSlot),
      ((ts.foldl (fun st t => markRateLimit cfg t none st) s).rateLimitBackoffCount =
         s.rateLimitBackoffCount + ts.length ∧
       (ts.foldl (fun st t => markRateLimit cfg t none st) s).rateLimitBaseRetryAfter =
         s.rateLimitBaseRetryAfter ∧
       (ts.foldl (fun st t => markRateLimit cfg t none st) s).rateLimitUntil =
         some (ts.getLast hne + min (s.rateLimitBaseRetryAfter *
           cfg.backoffMultiplier ^ (s.rateLimitBackoffCount + ts.length - 1))
           cfg.maxBackoff))
  | [], hne, s => absurd rfl hne
  | [t], hne, s => by
    simp only [List.foldl]
    rw [markRateLimit_none]
    refine ⟨rfl, rfl, ?_⟩
    simp [List.getLast]
  | t :: t2 :: ts, hne, s => by
    have hne2 : (t2 :: ts) ≠ [] := by simp
    have ih := markRateLimit_fold cfg (t2 :: ts) hne2 (markRateLimit cfg t none s)
    rw [markRateLimit_count, markRateLimit_base_none] at ih
    simp only [List.foldl] at ih ⊢
    refine ⟨?_, ih.2.1, ?_⟩
    · rw [ih.1]
      simp only [List.length_cons]
      omega
    · rw [ih.2.2, List.getLast_cons hne2]
      have hx : s.rateLimitBackoffCount + 1 + (t2 :: ts).length - 1 =
          s.rateLimitBackoffCount + (t :: t2 :: ts).length - 1 := by
        simp only [List.length_cons]
        omega
      rw [hx]

/-- C6: after `markRateLimit` is called k ≥ 1 times with no `retryAfter`
and no intervening success on a slot with a zero backoff count,
`rateLimitUntil` equals the last call time plus
`min(base · backoffMultiplier ^ (k − 1), maxBackoff)`; a single
`markSuccess` resets `rateLimitBackoffCount` to 0, so the next
`markRateLimit` uses the base (default) delay again. -/
theorem rate_limit_backoff_formula (cfg : PoolConfig) (s : ModelSlot) (ts : List ℚ)
    (hne : ts ≠ []) (h0 : s.rateLimitBackoffCount = 0)
    (hdm : cfg.defaultRetryAfter ≤ cfg.maxBackoff) :
    ((ts.foldl (fun st t => markRateLimit cfg t none st) s).rateLimitUntil =
       some (ts.getLast hne + min (s.rateLimitBaseRetryAfter *
         cfg.backoffMultiplier ^ (ts.length - 1)) cfg.maxBackoff) ∧
     (markSuccess cfg
        (ts.foldl (fun st t => markRateLimit cfg t none st) s)).rateLimitBackoffCount = 0 ∧
     ∀ t2, (markRateLimit cfg t2 none (markSuccess cfg
         (ts.foldl (fun st t => markRateLimit cfg t none st) s))).rateLimitUntil =
       some (t2 + cfg.defaultRetryAfter)) := by
  have h := markRateLimit_fold cfg ts hne s
  have hcount : (ts.foldl (fun st t => markRateLimit cfg t none st) s).rateLimitBackoffCount =
      ts.length := by rw [h.1, h0, Nat.zero_add]
  have hpos : 0 < ts.length := List.length_pos.mpr hne
  have hms : (markSuccess cfg
      (ts.foldl (fun st t => markRateLimit cfg t none st) s)).rateLimitBackoffCount = 0 ∧
      (markSuccess cfg
      (ts.foldl (fun st t => markRateLimit cfg t none st) s)).rateLimitBaseRetryAfter =
        cfg.defaultRetryAfter := by
    unfold markSuccess
    dsimp only
    split
    · rw [if_pos (by rw [hcount]; exact hpos)]
      exact ⟨rfl, rfl⟩
    · rw [if_pos (by rw [hcount]; exact hpos)]
      exact ⟨rfl, rfl⟩
  refine ⟨?_, hms.1, ?_⟩
  · rw [h.2.2, h0, Nat.zero_add]
  · intro t2
    rw [markRateLimit_none]
    dsimp only
    rw [hms.1, hms.2, pow_zero, mul_one, min_eq_left hdm]

/-- Witness for C6 at the default config (base 60000, multiplier 1.5, cap
300000) and call times 0, 100, 200: the third backoff is
min(60000 · 1.5², 300000) = 135000, and after a success the next delay is
the 60000 base again. -/
theorem rate_limit_backoff_formula_witness :
    ((([0, 100, 200] : List ℚ).foldl
        (fun st t => markRateLimit defaultPoolConfig t none st)
        (freshSlot defaultPoolConfig)).rateLimitUntil = some 135200 ∧
     (markRateLimit defaultPoolConfig 500 none (markSuccess defaultPoolConfig
        (([0, 100, 200] : List ℚ).foldl
          (fun st t => markRateLimit defaultPoolConfig t none st)
          (freshSlot defaultPoolConfig)))).rateLimitUntil = some 60500) := by
  have h := rate_limit_backoff_formula defaultPoolConfig (freshSlot defaultPoolConfig)
    [0, 100, 200] (by simp) rfl (by norm_num [defaultPoolConfig])
  constructor
  · rw [h.1]
    norm_num [defaultPoolConfig, freshSlot, List.getLast]
  · rw [h.2.2 500]
    norm_num [defaultPoolConfig]

theorem dedupAux_find (k : String) :
    ∀ (m : HeaderMap) (seen : List String),
      seen.contains (lowerStr k) = false →
      (dedupAux seen m).find? (fun p => lowerStr p.1 == lowerStr k) =
        m.find? (fun p => lowerStr p.1 == lowerStr k)
  | [], seen, h => rfl
  | p :: rest, seen, h => by
    unfold dedupAux
    dsimp only
    by_cases hc : seen.contains (lowerStr p.1) = true
    · rw [if_pos hc]
      have hp : (lowerStr p.1 == lowerStr k) = false := by
        rw [beq_eq_false_iff_ne]
        intro hx
        rw [hx] at hc
        rw [hc] at h
        exact Bool.true_eq_false.mp h
      rw [dedupAux_find k rest seen h, List.find?_cons, hp]
    · rw [if_neg hc]
      rw [List.find?_cons, List.find?_cons]
      by_cases hp : (lowerStr p.1 == lowerStr k) = true
      · rw [hp]
      · have hpf : (lowerStr p.1 == lowerStr k) = false := by
          simpa using hp
        rw [hpf]
        apply dedupAux_find k rest
        simp only [List.contains_cons, Bool.or_eq_false_iff]
        refine ⟨?_, h⟩
        rw [beq_eq_false_iff_ne]
        intro hx
        rw [hx] at hpf
        simp at hpf

/-- C7, amended claim: `deduplicateHeaders` is first-write-wins — for
every header map and key, the case-insensitive lookup in the deduplicated
map returns the value of the FIRST entry whose key matches
case-insensitively; a later entry with a differently-cased equal key is
dropped (a custom header replaces an earlier value only on an exact key
match, where JS assignment overwrites in place before deduplication). -/
theorem dedup_first_write_wins :
    ∀ (m : HeaderMap) (k : String),
      lookupHeaderCI (deduplicateHeaders m) k = lookupHeaderCI m k := by
  intro m k
  unfold lookupHeaderCI deduplicateHeaders
  rw [dedupAux_find k m [] rfl]

theorem singlePathCatch_fc (cfg : PoolConfig) (now : ℚ) (e : DispatchError) (s : ModelSlot)
    (h : isRateLimitError e = false) :
    (singlePathCatchBookkeeping cfg now e s).failureCount = s.failureCount + 2 := by
  unfold singlePathCatchBookkeeping
  rw [h]
  simp only [Bool.false_eq_true, if_false]
  rw [releaseSlot_false_fc, markFailure_fc]
  omega

theorem singlePathCatch_cbo (cfg : PoolConfig) (now : ℚ) (e : DispatchError) (s : ModelSlot)
    (h : isRateLimitError e = false) :
    (singlePathCatchBookkeeping cfg now e s).circuitBreakerOpen =
      (if s.failureCount + 1 ≥ cfg.failureThreshold then true else s.circuitBreakerOpen) := by
  unfold singlePathCatchBookkeeping
  rw [h]
  simp only [Bool.false_eq_true, if_false]
  rw [releaseSlot_cbo, markFailure_cbo]

/-- C10: the `handleSinglePath` catch branch runs `markFailure` and then
`releaseSlot(false)`, each incrementing `failureCount` once, so one failed
dispatch adds exactly 2; with `failureThreshold = 5` the circuit breaker is
still closed after two failed dispatches and open after three, not five. -/
theorem failed_dispatch_double_counts (cfg : PoolConfig) (now : ℚ) (s : ModelSlot)
    (e : DispatchError) (hrl : isRateLimitError e = false) (h5 : cfg.failureThreshold = 5)
    (h0 : s.failureCount = 0) (hc : s.circuitBreakerOpen = false) :
    ((singlePathCatchBookkeeping cfg now e s).failureCount = s.failureCount + 2 ∧
     (singlePathCatchBookkeeping cfg now e
       (singlePathCatchBookkeeping cfg now e s)).circuitBreakerOpen = false ∧
     (singlePathCatchBookkeeping cfg now e (singlePathCatchBookkeeping cfg now e
       (singlePathCatchBookkeeping cfg now e s))).circuitBreakerOpen = true) := by
  have fc1 : (singlePathCatchBookkeeping cfg now e s).failureCount = 2 := by
    rw [singlePathCatch_fc cfg now e s hrl, h0]
    omega
  have cb1 : (singlePathCatchBookkeeping cfg now e s).circuitBreakerOpen = false := by
    rw [singlePathCatch_cbo cfg now e s hrl, h0, h5]
    rw [if_neg (by omega)]
    exact hc
  have fc2 : (singlePathCatchBookkeeping cfg now e
      (singlePathCatchBookkeeping cfg now e s)).failureCount = 4 := by
    rw [singlePathCatch_fc cfg now e _ hrl, fc1]
    omega
  have cb2 : (singlePathCatchBookkeeping cfg now e
      (singlePathCatchBookkeeping cfg now e s)).circuitBreakerOpen = false := by
    rw [singlePathCatch_cbo cfg now e _ hrl, fc1, h5]
    rw [if_neg (by omega)]
    exact cb1
  have cb3 : (singlePathCatchBookkeeping cfg now e (singlePathCatchBookkeeping cfg now e
      (singlePathCatchBookkeeping cfg now e s))).circuitBreakerOpen = true := by
    rw [singlePathCatch_cbo cfg now e _ hrl, fc2, h5]
    rw [if_pos (by omega)]
  exact ⟨singlePathCatch_fc cfg now e s hrl, cb2, cb3⟩

/-- Witness for C10 at the default config, a slot with three active
requests, and a status-500 upstream error. -/
theorem failed_dispatch_double_counts_witness :
    ((singlePathCatchBookkeeping defaultPoolConfig 0 serverError
        slotThreeActive).failureCount = slotThreeActive.failureCount + 2 ∧
     (singlePathCatchBookkeeping defaultPoolConfig 0 serverError
       (singlePathCatchBookkeeping defaultPoolConfig 0 serverError
         slotThreeActive)).circuitBreakerOpen = false ∧
     (singlePathCatchBookkeeping defaultPoolConfig 0 serverError
       (singlePathCatchBookkeeping defaultPoolConfig 0 serverError
         (singlePathCatchBookkeeping defaultPoolConfig 0 serverError
           slotThreeActive))).circuitBreakerOpen = true) :=
  failed_dispatch_double_counts defaultPoolConfig 0 slotThreeActive serverError
    rfl rfl rfl rfl

/-- Witness for C5 at a concrete custom-model request and a 429 error. -/
theorem shouldAttemptFailover_iff_spec_witness :
    shouldAttemptFailover (some true) rateLimitedError = true ↔
      specFailoverEligible (some true) rateLimitedError :=
  shouldAttemptFailover_iff_spec (some true) rateLimitedError

/-- Witness for the amended C7 at a concrete two-entry map whose keys
collide case-insensitively. -/
theorem dedup_first_write_wins_witness :
    lookupHeaderCI (deduplicateHeaders [("Content-Type", "a"), ("content-type", "b")])
      "CONTENT-TYPE" =
      lookupHeaderCI [("Content-Type", "a"), ("content-type", "b")] "CONTENT-TYPE" :=
  dedup_first_write_wins [("Content-Type", "a"), ("content-type", "b")] "CONTENT-TYPE"

end CCR
